import Mathlib

/-!
Shallow embedding of `dazel.py` (a docker-based bazel launcher) and proofs
about its configuration resolution, argument normalization, workspace
location, and command construction.

The Python string primitives the script relies on (`str.split`, `str.strip`,
`str.startswith`, `str.join`) are re-implemented here character-by-character
with Python's semantics, so that every definition evaluates inside Lean.
-/

namespace Dazel

/-- The ASCII whitespace characters removed by Python's `str.strip()`. -/
def isSpaceChar (c : Char) : Bool :=
  c = ' ' || c = '\t' || c = '\n' || c = '\r' || c = '\x0b' || c = '\x0c'

/-- Python `s.strip()`: drop leading and trailing whitespace. -/
def pyStrip (s : String) : String :=
  String.mk (((s.data.dropWhile isSpaceChar).reverse.dropWhile isSpaceChar).reverse)

/-- Helper for `pySplitComma`: walk the characters, cutting at every comma. -/
def splitCommaAux : List Char → List Char → List String
  | [], acc => [String.mk acc.reverse]
  | c :: rest, acc =>
      if c = ',' then String.mk acc.reverse :: splitCommaAux rest []
      else splitCommaAux rest (c :: acc)

/-- Python `s.split(",")`: split at every comma, keeping empty pieces; in
particular `"".split(",") == [""]`. -/
def pySplitComma (s : String) : List String := splitCommaAux s.data []

/-- Python `s.startswith(p)`. -/
def pyStartsWith (s p : String) : Bool := p.data.isPrefixOf s.data

/-- Python `sep.join(xs)`: the elements interleaved with the separator. -/
def pyJoin (sep : String) : List String → String
  | [] => ""
  | [a] => a
  | a :: rest => a ++ sep ++ pyJoin sep rest

/-- The Python values a dazel configuration entry can hold: `None`, a string,
a list of strings (the iterable case), a boolean, or an integer (the
non-string non-iterable scalar case). -/
inductive PyVal where
  | vnone
  | vstr (s : String)
  | vlist (l : List String)
  | vbool (b : Bool)
  | vint (n : Int)
  deriving DecidableEq, Repr

/-- Python truthiness (`bool(v)`) for the values above. -/
def truthy : PyVal → Bool
  | .vnone => false
  | .vstr s => s != ""
  | .vlist l => !l.isEmpty
  | .vbool b => b
  | .vint n => n != 0

/-- Python `dict` lookup (`d.get(k)` without default), as a first-match search
of an association list; the dicts dazel builds never carry duplicate keys. -/
def dget (d : List (String × PyVal)) (k : String) : Option PyVal :=
  (d.find? (fun p => p.1 == k)).map (fun p => p.2)

/-- Python `d[k] = v`: overwrite the binding in place when the key is already
present, otherwise append the new binding. -/
def dinsert : List (String × PyVal) → String → PyVal → List (String × PyVal)
  | [], k, v => [(k, v)]
  | p :: t, k, v => if p.1 == k then (k, v) :: t else p :: dinsert t k v

/-- Python `d.update(u)`: insert every binding of `u` into `d`, in order. -/
def dictUpdate (d u : List (String × PyVal)) : List (String × PyVal) :=
  u.foldl (fun acc p => dinsert acc p.1 p.2) d

/-- `DockerInstance._config_from_environment`: keep exactly the environment
entries whose name starts with `DAZEL_`, as string values. -/
def configFromEnvironment (environ : List (String × String)) : List (String × PyVal) :=
  (environ.filter (fun p => pyStartsWith p.1 "DAZEL_")).map (fun p => (p.1, PyVal.vstr p.2))

/-- The merge performed by `DockerInstance.from_config`:
`config = cls._config_from_file()` followed by
`config.update(cls._config_from_environment())`. The file-based dict is
arbitrary here because `.dazelrc` is a script that may bind any names. -/
def mergedConfig (fileConfig : List (String × PyVal)) (environ : List (String × String)) :
    List (String × PyVal) :=
  dictUpdate fileConfig (configFromEnvironment environ)

/-- `[p.strip() for p in s.split(",")]`, the comma-split-and-trim applied to
string-valued `DAZEL_PORTS` / `DAZEL_ENV_VARS`. -/
def splitTrim (s : String) : List String := (pySplitComma s).map pyStrip

/-- Message of the `RuntimeError` raised by `_add_ports` on a bad shape. -/
def portsError : String :=
  "DAZEL_PORTS must be comma-separated string or python iterable of strings"

/-- Message of the `RuntimeError` raised by `_add_env_vars` on a bad shape. -/
def envVarsError : String :=
  "DAZEL_ENV_VARS must be comma-separated string or python iterable of strings"

/-- The value-shape analysis of `DockerInstance._add_ports`: a falsy value
contributes no entries (`if not ports: return`); a string is comma-split and
trimmed; an iterable of strings is used as is; any other truthy value raises. -/
def normalizePorts (v : PyVal) : Except String (List String) :=
  if truthy v = false then .ok []
  else match v with
    | .vstr s => .ok (splitTrim s)
    | .vlist l => .ok l
    | _ => .error portsError

/-- The value-shape analysis of `DockerInstance._add_env_vars`, identical to
`normalizePorts` except for the key named in the error. -/
def normalizeEnvVars (v : PyVal) : Except String (List String) :=
  if truthy v = false then .ok []
  else match v with
    | .vstr s => .ok (splitTrim s)
    | .vlist l => .ok l
    | _ => .error envVarsError

/-- `DockerInstance._add_ports`: the rendered `self.ports` fragment, `""` for
falsy input and otherwise `'-p "%s"' % '" -p "'.join(ports)`. -/
def addPorts (v : PyVal) : Except String String :=
  (normalizePorts v).map (fun l =>
    if l.isEmpty then "" else "-p \"" ++ pyJoin "\" -p \"" l ++ "\"")

/-- `DockerInstance._add_env_vars`: the rendered `self.env_vars` fragment,
`""` for falsy input and otherwise `'-e "%s"' % '" -e "'.join(env_vars)`. -/
def addEnvVars (v : PyVal) : Except String String :=
  (normalizeEnvVars v).map (fun l =>
    if l.isEmpty then "" else "-e \"" ++ pyJoin "\" -e \"" l ++ "\"")

/-- The ports pipeline of `from_config`: merge the two sources, read
`DAZEL_PORTS` with default `DEFAULT_PORTS = []`, and render via `_add_ports`. -/
def portsFragmentFromConfig (fileConfig : List (String × PyVal))
    (environ : List (String × String)) : Except String String :=
  addPorts ((dget (mergedConfig fileConfig environ) "DAZEL_PORTS").getD (.vlist []))

/-- The fields of a constructed `DockerInstance`; `ports` and `env_vars` hold
the command-line fragments already rendered by `_add_ports`/`_add_env_vars`. -/
structure DockerInstance where
  workspace_root : String
  ports : String
  env_vars : String
  docker_compose_file : String
  bazel_rc_file : String
  docker_run_privileged : Bool
  user : String
  deriving DecidableEq, Repr

/-- One forwarded argument as `send_command` quotes it. -/
def quoteArg (a : String) : String := "\"" ++ a ++ "\""

/-- The last slot of `send_command`'s format string:
`'"%s"' % '" "'.join(args)`. -/
def quotedArgs (args : List String) : String := "\"" ++ pyJoin "\" \"" args ++ "\""

/-- `send_command`'s command line up to (and excluding) the forwarded-argument
part: the docker-exec invocation with terminal geometry and `TERM` overrides,
the env-vars fragment, the tty/privileged/user fragments, the fixed container
name, the fixed bazel binary, the optional `--bazelrc` and the pinned
`--output_user_root`/`--output_base`. -/
def sendCommandHead (di : DockerInstance) (columns lines : Nat) (term : String)
    (stdoutIsTty : Bool) : String :=
  "docker" ++ " exec -i -e COLUMNS=" ++ toString columns ++
  " -e LINES=" ++ toString lines ++
  " -e TERM=" ++ term ++
  " -w /code " ++ di.env_vars ++
  " " ++ (if stdoutIsTty then "-t" else "") ++
  " " ++ (if di.docker_run_privileged then "--privileged" else "") ++
  " " ++ (if di.user != "" then "--user=" ++ di.user else "") ++
  " " ++ "dazel_build" ++
  " " ++ "/usr/bin/bazel" ++
  " " ++ (if di.bazel_rc_file != "" then "--bazelrc=" ++ "/code" ++ "/" ++ di.bazel_rc_file else "") ++
  " " ++ "--output_user_root=" ++ "/var/bazel/workspace/_bazel_dazel" ++
  " " ++ "--output_base=" ++ "/root/.cache/bazel/_bazel_dazel"

/-- The full command string built by `DockerInstance.send_command`. -/
def sendCommandLine (di : DockerInstance) (columns lines : Nat) (term : String)
    (stdoutIsTty : Bool) (args : List String) : String :=
  sendCommandHead di columns lines term stdoutIsTty ++ " " ++ quotedArgs args

/-- `os.WEXITSTATUS` of a raw `wait`-status word: bits 8..15. -/
def wexitstatus (status : Nat) : Nat := status / 256 % 256

/-- Outcomes of the external processes dazel spawns: the exit code of the
`which docker-compose` probe, the exit code of `docker-compose up`, and the
raw wait status `os.system` reports for the forwarded docker-exec command. -/
structure SysWorld where
  whichRC : Nat
  composeUpRC : Nat
  forwardedWaitStatus : Nat
  deriving DecidableEq, Repr

/-- The shell line `_command_exists` spawns silently. -/
def whichCommand (cmd : String) : String := "which " ++ cmd ++ " >/dev/null 2>&1"

/-- `_command_exists(cmd)`: true iff the `which` probe exited 0. -/
def commandExists (w : SysWorld) : Bool := w.whichRC == 0

/-- `os.path.join` for the path pair used here (absolute directory joined
with a relative file name). -/
def ospathJoin (a b : String) : String :=
  if a = "" then b
  else if a.data.getLast? = some '/' then a ++ b
  else a ++ "/" ++ b

/-- The shell line `_start_compose_services` spawns. -/
def composeUpCommand (di : DockerInstance) : String :=
  "COMPOSE_PROJECT_NAME=" ++ "dazel" ++ " docker-compose -f " ++
  ospathJoin di.workspace_root di.docker_compose_file ++ " up -d --remove-orphans"

/-- `DockerInstance.start`, instrumented with the list of shell command lines
it hands to subprocesses, in order. The `which docker-compose` probe always
runs first; if it fails, `start` returns 1. Otherwise
`_start_compose_services` returns 0 at once when `docker_compose_file` is
falsy, and otherwise spawns `docker-compose up` and returns its exit code. -/
def start (di : DockerInstance) (w : SysWorld) : Nat × List String :=
  if commandExists w = false then (1, [whichCommand "docker-compose"])
  else if di.docker_compose_file = "" then (0, [whichCommand "docker-compose"])
  else (w.composeUpRC, [whichCommand "docker-compose", composeUpCommand di])

/-- `send_command`'s return value: `os.WEXITSTATUS(os.system(command))`. -/
def sendCommandExit (w : SysWorld) : Nat := wexitstatus w.forwardedWaitStatus

/-- `main()`: builds the instance, binds `rc = di.start()` (never read
afterwards), then returns `di.send_command(sys.argv[1:])`. -/
def mainExit (di : DockerInstance) (w : SysWorld) : Nat :=
  let _rc := (start di w).1
  sendCommandExit w

/-- A filesystem for the workspace locator: the list of directories (as
component lists below the root `/`) that contain a `WORKSPACE` marker file. -/
abbrev MarkerFS := List (List String)

/-- `DockerInstance._find_workspace_directory` on a directory given as its
component list (`[]` is the root `/`): while the directory is not the root
and lacks the `WORKSPACE` marker, move to `os.path.dirname` of it (drop the
last component); the loop guard stops at the root without a marker check. -/
def findWorkspaceDirectory (fs : MarkerFS) : List String → List String
  | [] => []
  | a :: t => if (a :: t) ∈ fs then a :: t else findWorkspaceDirectory fs (a :: t).dropLast
  termination_by d => d.length
  decreasing_by simp [List.length_dropLast]

/-- Rendering a component list back to the POSIX path string the Python code
manipulates; `[]` renders to the root `"/"`. -/
def pathToString (p : List String) : String := "/" ++ pyJoin "/" p

/-- The strings `x` and `y` occur in `s` as substrings, in that order. -/
def containsInOrder (s x y : String) : Prop :=
  ∃ a b c, s = a ++ x ++ b ++ y ++ c

end Dazel

deriving instance DecidableEq for Except

namespace Dazel

theorem dget_cons (p : String × PyVal) (t : List (String × PyVal)) (k : String) :
    dget (p :: t) k = if p.1 == k then some p.2 else dget t k := by
  by_cases h : p.1 == k
  · simp [dget, List.find?_cons_of_pos _ h, h]
  · simp [dget, List.find?_cons_of_neg _ h, h]

theorem dget_dinsert_self (d : List (String × PyVal)) (k : String) (v : PyVal) :
    dget (dinsert d k v) k = some v := by
  induction d with
  | nil => simp [dinsert, dget_cons]
  | cons p t ih =>
    by_cases h : p.1 == k
    · simp [dinsert, h, dget_cons]
    · simp [dinsert, h, dget_cons, ih]

theorem dget_dinsert_ne (d : List (String × PyVal)) (k : String) (v : PyVal)
    (k' : String) (hne : k' ≠ k) : dget (dinsert d k v) k' = dget d k' := by
  induction d with
  | nil =>
    have hb : (k == k') = false := by simp [beq_iff_eq]; exact fun hh => hne hh.symm
    simp [dinsert, dget_cons, hb]
  | cons p t ih =>
    by_cases h : p.1 == k
    · have hp : p.1 = k := by simpa [beq_iff_eq] using h
      have hk : (k == k') = false := by simp [beq_iff_eq]; exact fun hh => hne hh.symm
      have hk2 : (p.1 == k') = false := by simp [beq_iff_eq, hp]; exact fun hh => hne hh.symm
      simp [dinsert, h, dget_cons, hk, hk2]
    · simp [dinsert, h, dget_cons, ih]

theorem dget_eq_none_of_not_mem (d : List (String × PyVal)) (k : String)
    (h : k ∉ d.map Prod.fst) : dget d k = none := by
  induction d with
  | nil => rfl
  | cons p t ih =>
    simp only [List.map_cons, List.mem_cons, not_or] at h
    have hb : (p.1 == k) = false := by simp [beq_iff_eq]; exact fun hh => h.1 hh.symm
    simp [dget_cons, hb, ih h.2]

theorem dget_dictUpdate_of_none (d u : List (String × PyVal)) (k : String)
    (h : dget u k = none) : dget (dictUpdate d u) k = dget d k := by
  induction u generalizing d with
  | nil => rfl
  | cons p t ih =>
    rw [dget_cons] at h
    by_cases hb : p.1 == k
    · simp [hb] at h
    · simp only [hb, if_false] at h
      have hstep : dictUpdate d (p :: t) = dictUpdate (dinsert d p.1 p.2) t := rfl
      rw [hstep, ih _ h, dget_dinsert_ne]
      exact fun hh => by simp [hh] at hb

theorem dget_dictUpdate_of_some (d u : List (String × PyVal)) (k : String) (v : PyVal)
    (hnd : (u.map Prod.fst).Nodup) (h : dget u k = some v) :
    dget (dictUpdate d u) k = some v := by
  induction u generalizing d with
  | nil => simp [dget] at h
  | cons p t ih =>
    simp only [List.map_cons, List.nodup_cons] at hnd
    rw [dget_cons] at h
    have hstep : dictUpdate d (p :: t) = dictUpdate (dinsert d p.1 p.2) t := rfl
    by_cases hb : p.1 == k
    · have hp : p.1 = k := by simpa [beq_iff_eq] using hb
      simp only [hb, if_true] at h
      have htk : dget t k = none := by
        apply dget_eq_none_of_not_mem
        rw [← hp]; exact hnd.1
      rw [hstep, dget_dictUpdate_of_none _ _ _ htk, hp, dget_dinsert_self, h]
    · simp only [hb, if_false] at h
      rw [hstep, ih _ hnd.2 h]

theorem pyJoin_space_quote (args : List String) (h : args ≠ []) :
    quotedArgs args = pyJoin " " (args.map quoteArg) := by
  induction args with
  | nil => exact absurd rfl h
  | cons a t ih =>
    cases t with
    | nil => simp [quotedArgs, pyJoin, quoteArg]
    | cons b t' =>
      have ih' := ih (by simp)
      have hsep : ("\" \"" : String) = "\"" ++ " " ++ "\"" := rfl
      simp only [quotedArgs, pyJoin, List.map_cons, quoteArg] at ih' ⊢
      rw [← ih', hsep]
      simp only [String.append_assoc]

theorem findWorkspaceDirectory_of_ne_nil (fs : MarkerFS) (d : List String) (h : d ≠ []) :
    findWorkspaceDirectory fs d =
      if d ∈ fs then d else findWorkspaceDirectory fs d.dropLast := by
  cases d with
  | nil => exact absurd rfl h
  | cons a t => rw [findWorkspaceDirectory]

theorem findWorkspaceDirectory_no_marker_aux (n : Nat) :
    ∀ (fs : MarkerFS) (d : List String), d.length ≤ n → (∀ i, d.take i ∉ fs) →
      findWorkspaceDirectory fs d = [] := by
  induction n with
  | zero =>
    intro fs d hlen _
    have hd : d = [] := by
      cases d with
      | nil => rfl
      | cons a t => simp at hlen
    rw [hd, findWorkspaceDirectory]
  | succ n ih =>
    intro fs d hlen h
    cases d with
    | nil => rw [findWorkspaceDirectory]
    | cons a t =>
      have hmem : (a :: t) ∉ fs := by
        have := h (a :: t).length
        rwa [List.take_length] at this
      rw [findWorkspaceDirectory_of_ne_nil _ _ (by simp), if_neg hmem]
      apply ih
      · simp only [List.length_dropLast, List.length_cons] at *
        omega
      · intro i
        rw [List.dropLast_eq_take, List.take_take]
        exact h _

end Dazel

namespace Dazel

/-- C1: in the merged configuration built by `from_config`, every key present
in the environment-based source takes its environment value (so it overrides
a file-based binding of the same key), and a key absent from the
environment-based source keeps its file-based lookup result, so keys present
in only one source survive with that source's value. -/
theorem dazel_merge_env_overrides (fileConfig : List (String × PyVal))
    (environ : List (String × String)) (k : String)
    (hnd : ((configFromEnvironment environ).map Prod.fst).Nodup) :
    (∀ v, dget (configFromEnvironment environ) k = some v →
        dget (mergedConfig fileConfig environ) k = some v) ∧
    (dget (configFromEnvironment environ) k = none →
        dget (mergedConfig fileConfig environ) k = dget fileConfig k) := by
  constructor
  · intro v hv
    exact dget_dictUpdate_of_some fileConfig _ k v hnd hv
  · intro h0
    exact dget_dictUpdate_of_none fileConfig _ k h0

/-- Concrete instantiation of the merge theorem: `DAZEL_PORTS` is bound in
both sources and the environment value wins; `DAZEL_USER` is bound only in
the file source and survives; `HOME` lacks the prefix and is filtered out. -/
theorem dazel_merge_env_overrides_witness :
    ((configFromEnvironment [("DAZEL_PORTS", "3,4"), ("HOME", "/h")]).map Prod.fst).Nodup ∧
    dget (mergedConfig [("DAZEL_PORTS", PyVal.vstr "1,2"), ("DAZEL_USER", PyVal.vstr "bob")]
        [("DAZEL_PORTS", "3,4"), ("HOME", "/h")]) "DAZEL_PORTS" = some (PyVal.vstr "3,4") ∧
    dget (mergedConfig [("DAZEL_PORTS", PyVal.vstr "1,2"), ("DAZEL_USER", PyVal.vstr "bob")]
        [("DAZEL_PORTS", "3,4"), ("HOME", "/h")]) "DAZEL_USER" =
      dget [("DAZEL_PORTS", PyVal.vstr "1,2"), ("DAZEL_USER", PyVal.vstr "bob")] "DAZEL_USER" :=
  ⟨by decide,
   (dazel_merge_env_overrides _ _ "DAZEL_PORTS" (by decide)).1 _ (by decide),
   (dazel_merge_env_overrides _ _ "DAZEL_USER" (by decide)).2 (by decide)⟩

/-- C2 (code bug): `main` binds `rc = di.start()` but never reads it, so the
process exit code is always `send_command`'s decoded wait status. With
docker-compose missing (the `which` probe exits 1) and the forwarded command
exiting 0, `start` returns 1 yet the process exits 0; with `docker-compose up`
failing with 5, the process still exits 0; the forwarded command's raw wait
status 512 is decoded to the real exit code 2. -/
theorem dazel_main_ignores_start_rc :
    (start ⟨"/ws", "", "", "docker-compose.yml", "", false, ""⟩ ⟨1, 0, 0⟩).1 = 1 ∧
    mainExit ⟨"/ws", "", "", "docker-compose.yml", "", false, ""⟩ ⟨1, 0, 0⟩ = 0 ∧
    (start ⟨"/ws", "", "", "docker-compose.yml", "", false, ""⟩ ⟨0, 5, 0⟩).1 = 5 ∧
    mainExit ⟨"/ws", "", "", "docker-compose.yml", "", false, ""⟩ ⟨0, 5, 0⟩ = 0 ∧
    mainExit ⟨"/ws", "", "", "docker-compose.yml", "", false, ""⟩ ⟨0, 0, 512⟩ = 2 := by
  decide

/-- C3 counterexample: with an empty `docker_compose_file` but the
docker-compose executable missing, `start` returns 1 (not 0) and has spawned
the `which docker-compose` probe (not nothing). -/
theorem dazel_start_empty_compose_counterexample :
    (start ⟨"/ws", "", "", "", "", false, ""⟩ ⟨1, 0, 0⟩).1 = 1 ∧
    (start ⟨"/ws", "", "", "", "", false, ""⟩ ⟨1, 0, 0⟩).2 ≠ [] := by
  decide

/-- C3 amended: for every profile whose `docker_compose_file` is empty,
`start` spawns exactly the `which docker-compose` existence probe and no
compose process, and returns 0 when the probe succeeds and 1 when it fails. -/
theorem dazel_start_empty_compose_amended (di : DockerInstance) (w : SysWorld)
    (h : di.docker_compose_file = "") :
    start di w = ((if commandExists w then 0 else 1), [whichCommand "docker-compose"]) := by
  cases hcw : commandExists w <;> simp [start, h, hcw]

/-- Concrete instantiation of the amended start theorem: empty compose file
and a present docker-compose executable give exit 0 and one probe spawn. -/
theorem dazel_start_empty_compose_amended_witness :
    (⟨"/ws", "", "", "", "", false, ""⟩ : DockerInstance).docker_compose_file = "" ∧
    start ⟨"/ws", "", "", "", "", false, ""⟩ ⟨0, 0, 0⟩ = (0, [whichCommand "docker-compose"]) :=
  ⟨rfl, (dazel_start_empty_compose_amended ⟨"/ws", "", "", "", "", false, ""⟩ ⟨0, 0, 0⟩ rfl).trans
    (by decide)⟩

end Dazel

namespace Dazel

/-- C4 counterexample: a configuration file binding the bare name `PORTS`
(rather than `DAZEL_PORTS`) to `"80,443"`, with no environment override,
renders an empty ports fragment, which does not contain `-p "80"` followed by
`-p "443"`. -/
theorem dazel_ports_unqualified_key_counterexample :
    portsFragmentFromConfig
        [("DAZEL_WORKSPACE_ROOT", PyVal.vstr "/ws"), ("PORTS", PyVal.vstr "80,443")] [] =
      .ok "" ∧
    ¬ containsInOrder "" ("-p \"80\"") ("-p \"443\"") := by
  constructor
  · decide
  · rintro ⟨a, b, c, hstr⟩
    have hlen := congrArg String.length hstr
    simp only [String.length_append] at hlen
    rw [show ("" : String).length = 0 from rfl,
        show ("-p \"80\"" : String).length = 7 from rfl,
        show ("-p \"443\"" : String).length = 8 from rfl] at hlen
    omega

/-- C4 amended: when the configuration file binds `DAZEL_PORTS` (the spelling
`from_config` actually reads) to `"80,443"` and the environment-based source
does not bind `DAZEL_PORTS`, the rendered ports fragment is
`-p "80" -p "443"`, which contains `-p "80"` followed by `-p "443"`. -/
theorem dazel_ports_dazel_key_renders (fileConfig : List (String × PyVal))
    (environ : List (String × String))
    (h1 : dget fileConfig "DAZEL_PORTS" = some (PyVal.vstr "80,443"))
    (h2 : dget (configFromEnvironment environ) "DAZEL_PORTS" = none) :
    portsFragmentFromConfig fileConfig environ = .ok ("-p \"80\" -p \"443\"") ∧
    containsInOrder ("-p \"80\" -p \"443\"") ("-p \"80\"") ("-p \"443\"") := by
  constructor
  · unfold portsFragmentFromConfig mergedConfig
    rw [dget_dictUpdate_of_none _ _ _ h2, h1]
    decide
  · exact ⟨"", " ", "", by decide⟩

/-- Concrete instantiation of the ports-rendering theorem with a file config
binding `DAZEL_PORTS = "80,443"` and an empty environment. -/
theorem dazel_ports_dazel_key_renders_witness :
    dget [("DAZEL_WORKSPACE_ROOT", PyVal.vstr "/ws"), ("DAZEL_PORTS", PyVal.vstr "80,443")]
        "DAZEL_PORTS" = some (PyVal.vstr "80,443") ∧
    dget (configFromEnvironment []) "DAZEL_PORTS" = none ∧
    portsFragmentFromConfig
        [("DAZEL_WORKSPACE_ROOT", PyVal.vstr "/ws"), ("DAZEL_PORTS", PyVal.vstr "80,443")] [] =
      .ok ("-p \"80\" -p \"443\"") :=
  ⟨by decide, by decide,
   (dazel_ports_dazel_key_renders _ _ (by decide) (by decide)).1⟩

/-- C6 counterexample: at the single-string input `""` the normalizer takes
the `if not ports` early return and yields `[]`, not the comma-split-and-trim
result `[""]`, so empty entries are not preserved there. -/
theorem dazel_normalize_empty_string_counterexample :
    normalizePorts (PyVal.vstr "") ≠ .ok (splitTrim "") ∧
    normalizePorts (PyVal.vstr "") = .ok [] ∧
    splitTrim "" = [""] := by
  decide

/-- C6 amended: for every non-empty single-string input, both list
normalizations (ports and env vars) yield the input split on commas with each
entry trimmed, empty entries kept. -/
theorem dazel_normalize_split_trim (s : String) (h : s ≠ "") :
    normalizePorts (PyVal.vstr s) = .ok (splitTrim s) ∧
    normalizeEnvVars (PyVal.vstr s) = .ok (splitTrim s) := by
  have ht : truthy (PyVal.vstr s) = true := by simp [truthy, h]
  simp [normalizePorts, normalizeEnvVars, ht]

/-- Concrete instantiation of the split-and-trim theorem on
`"8080:8080, 9090:9090"`, which normalizes to `["8080:8080", "9090:9090"]`. -/
theorem dazel_normalize_split_trim_witness :
    ("8080:8080, 9090:9090" : String) ≠ "" ∧
    (normalizePorts (PyVal.vstr "8080:8080, 9090:9090") =
        .ok (splitTrim "8080:8080, 9090:9090") ∧
     normalizeEnvVars (PyVal.vstr "8080:8080, 9090:9090") =
        .ok (splitTrim "8080:8080, 9090:9090")) ∧
    splitTrim "8080:8080, 9090:9090" = ["8080:8080", "9090:9090"] :=
  ⟨by decide, dazel_normalize_split_trim _ (by decide), by decide⟩

/-- C7: the empty string, `None`, and the empty list each normalize to the
empty sequence, and each renders to the completely empty fragment `""`
(no tokens at all), for both the ports and the env-vars normalizer. -/
theorem dazel_normalize_empty_inputs :
    normalizePorts (PyVal.vstr "") = .ok [] ∧ normalizePorts PyVal.vnone = .ok [] ∧
    normalizePorts (PyVal.vlist []) = .ok [] ∧
    normalizeEnvVars (PyVal.vstr "") = .ok [] ∧ normalizeEnvVars PyVal.vnone = .ok [] ∧
    normalizeEnvVars (PyVal.vlist []) = .ok [] ∧
    addPorts (PyVal.vstr "") = .ok "" ∧ addPorts PyVal.vnone = .ok "" ∧
    addPorts (PyVal.vlist []) = .ok "" ∧
    addEnvVars (PyVal.vstr "") = .ok "" ∧ addEnvVars PyVal.vnone = .ok "" ∧
    addEnvVars (PyVal.vlist []) = .ok "" := by
  decide

/-- C8: every truthy value that is neither a string nor an iterable of strings
(a non-zero integer, or `True`) makes both normalizers fail with the error
whose message names the offending configuration key (it even starts with it)
and describes the accepted shapes, and no fragment is produced. -/
theorem dazel_normalize_scalar_error (n : Int) (h : n ≠ 0) :
    addPorts (PyVal.vint n) = .error portsError ∧
    addEnvVars (PyVal.vint n) = .error envVarsError ∧
    addPorts (PyVal.vbool true) = .error portsError ∧
    addEnvVars (PyVal.vbool true) = .error envVarsError ∧
    pyStartsWith portsError "DAZEL_PORTS" = true ∧
    pyStartsWith envVarsError "DAZEL_ENV_VARS" = true := by
  have ht : truthy (PyVal.vint n) = true := by simp [truthy, h]
  refine ⟨?_, ?_, by decide, by decide, by decide, by decide⟩
  · simp [addPorts, normalizePorts, ht, Except.map]
  · simp [addEnvVars, normalizeEnvVars, ht, Except.map]

/-- Concrete instantiation of the scalar-rejection theorem at the bare
integer 7. -/
theorem dazel_normalize_scalar_error_witness :
    (7 : Int) ≠ 0 ∧
    (addPorts (PyVal.vint 7) = .error portsError ∧
     addEnvVars (PyVal.vint 7) = .error envVarsError ∧
     addPorts (PyVal.vbool true) = .error portsError ∧
     addEnvVars (PyVal.vbool true) = .error envVarsError ∧
     pyStartsWith portsError "DAZEL_PORTS" = true ∧
     pyStartsWith envVarsError "DAZEL_ENV_VARS" = true) :=
  ⟨by decide, dazel_normalize_scalar_error 7 (by decide)⟩

end Dazel

namespace Dazel

/-- C5 counterexample: run with no marker anywhere above the start directory,
the locator returns the filesystem root `"/"`, not the empty string, so the
sentinel for "no workspace found" is the root path rather than an empty
result. -/
theorem dazel_locator_root_sentinel_counterexample :
    pathToString (findWorkspaceDirectory [] ["home", "user", "project"]) = "/" ∧
    pathToString (findWorkspaceDirectory [] ["home", "user", "project"]) ≠ "" := by
  have h0 : findWorkspaceDirectory ([] : MarkerFS) ["home", "user", "project"] = [] :=
    findWorkspaceDirectory_no_marker_aux 3 [] _ (by decide) (fun i => by simp)
  rw [h0]
  exact ⟨rfl, by decide⟩

/-- C5 amended: started three levels below a directory containing the marker
(with no closer marker), the locator returns that marker's directory; started
with no marker in the start directory or any of its ancestors, it terminates
and returns the filesystem root `"/"` (the code's sentinel, instead of the
empty string); being a total Lean function it never raises and never loops. -/
theorem dazel_locator_behavior :
    (∀ (fs : MarkerFS) (m : List String) (x y z : String),
        m ∈ fs → m ++ [x] ∉ fs → m ++ [x, y] ∉ fs → m ++ [x, y, z] ∉ fs →
        findWorkspaceDirectory fs (m ++ [x, y, z]) = m) ∧
    (∀ (fs : MarkerFS) (d : List String), (∀ i, d.take i ∉ fs) →
        findWorkspaceDirectory fs d = [] ∧
        pathToString (findWorkspaceDirectory fs d) = "/") := by
  constructor
  · intro fs m x y z h0 h1 h2 h3
    rw [findWorkspaceDirectory_of_ne_nil _ _ (by simp), if_neg h3]
    rw [show (m ++ [x, y, z]).dropLast = m ++ [x, y] from by
      rw [show m ++ [x, y, z] = (m ++ [x, y]) ++ [z] from by simp, List.dropLast_concat]]
    rw [findWorkspaceDirectory_of_ne_nil _ _ (by simp), if_neg h2]
    rw [show (m ++ [x, y]).dropLast = m ++ [x] from by
      rw [show m ++ [x, y] = (m ++ [x]) ++ [y] from by simp, List.dropLast_concat]]
    rw [findWorkspaceDirectory_of_ne_nil _ _ (by simp), if_neg h1]
    rw [List.dropLast_concat]
    cases m with
    | nil => rw [findWorkspaceDirectory]
    | cons a t => rw [findWorkspaceDirectory_of_ne_nil _ _ (by simp), if_pos h0]
  · intro fs d h
    have h0 : findWorkspaceDirectory fs d = [] :=
      findWorkspaceDirectory_no_marker_aux d.length fs d le_rfl h
    exact ⟨h0, by rw [h0]; rfl⟩

/-- Concrete instantiation of the locator theorem: a marker at
`/home/me/proj` is found from three levels below it, and a markerless
filesystem sends `/u/v/w` to the root. -/
theorem dazel_locator_behavior_witness :
    (["home", "me", "proj"] ∈ ([["home", "me", "proj"]] : MarkerFS) ∧
     findWorkspaceDirectory [["home", "me", "proj"]]
        (["home", "me", "proj"] ++ ["a", "b", "c"]) = ["home", "me", "proj"]) ∧
    (findWorkspaceDirectory ([] : MarkerFS) ["u", "v", "w"] = [] ∧
     pathToString (findWorkspaceDirectory ([] : MarkerFS) ["u", "v", "w"]) = "/") :=
  ⟨⟨by decide,
    dazel_locator_behavior.1 _ _ "a" "b" "c" (by decide) (by decide) (by decide) (by decide)⟩,
   dazel_locator_behavior.2 [] _ (fun i => by simp)⟩

/-- C9: for every non-empty argument list, `send_command`'s command line is
exactly the flags part followed by the forwarded arguments, each individually
wrapped in double quotes, separated by single spaces, in their original
order, at the very end. -/
theorem dazel_send_command_quotes_args (di : DockerInstance) (columns lines : Nat)
    (term : String) (stdoutIsTty : Bool) (args : List String) (h : args ≠ []) :
    sendCommandLine di columns lines term stdoutIsTty args =
      sendCommandHead di columns lines term stdoutIsTty ++ " " ++
        pyJoin " " (args.map quoteArg) := by
  rw [sendCommandLine, pyJoin_space_quote args h]

/-- Concrete instantiation of the quoting theorem at the argument list
`["build", "//foo:bar"]`, which contributes exactly the two quoted tokens
`"build"` and `"//foo:bar"` after all flags. -/
theorem dazel_send_command_quotes_args_witness :
    (["build", "//foo:bar"] : List String) ≠ [] ∧
    sendCommandLine ⟨"/ws", "", "", "", "", false, ""⟩ 80 24 "xterm" true
        ["build", "//foo:bar"] =
      sendCommandHead ⟨"/ws", "", "", "", "", false, ""⟩ 80 24 "xterm" true ++ " " ++
        pyJoin " " (["build", "//foo:bar"].map quoteArg) :=
  ⟨by decide, dazel_send_command_quotes_args _ 80 24 "xterm" true _ (by decide)⟩

/-- C10: with an empty argument list the command line still ends with one
empty double-quoted token `""` (the in-container build tool receives a single
empty argument) rather than the forwarded part contributing nothing. -/
theorem dazel_send_command_empty_args (di : DockerInstance) (columns lines : Nat)
    (term : String) (stdoutIsTty : Bool) :
    sendCommandLine di columns lines term stdoutIsTty [] =
      sendCommandHead di columns lines term stdoutIsTty ++ " " ++ "\"\"" := by
  rw [sendCommandLine]; rfl

end Dazel
